import Mathlib

/-!
Shallow embedding of the `my_logger` repository (Python) in Lean 4.

Source files embedded:
  * `src/my_logger/utils.py`  — `extract_line_number_from_message_traceback`
  * `src/my_logger/db.py`     — `MyDB.__init__`, `MyDB.get_conn`,
    `MyDB._emergency_log`, `MyDB.insert_into_db`, `MyDB.sqlite_sink`
  * `src/my_logger/logger.py` — `MyLogger.log_exception`,
    `MyLogger.log_exception_decorator`
  * `src/my_logger/cli.py`    — `export_logs`, `update_commit`

Conventions of the embedding:
  * SQLite values are `Val` (integer, text or NULL); wall-clock instants are
    abstract parameters threaded explicitly (`now`).
  * A database row set is a `DBState`; every statement that can raise an
    exception in Python is a Lean function into `Except String _`, and the
    `try/except` blocks of the source become `match` on that result.  The
    `get_conn` context manager commits on success and rolls back on any
    exception, so an erroring statement leaves the state unchanged: this is
    modelled by the erroring branch returning the old state.
  * Environment facts the code reads from the outside world (whether the
    connection can be opened, what `traceback.format_exc()` returns, what
    `linecache.getline` returns, the loguru record of the current exception)
    are explicit parameters.
  * The Python class `\d` is modelled as an ASCII digit and text as `List Char`.
-/

namespace MyLoggerModel

/-- A SQLite storage value: integer, text, or NULL. -/
inductive Val where
  | int  (n : Int)    : Val
  | str  (s : String) : Val
  | null              : Val
deriving DecidableEq, Repr

/-- A record mapping passed to / stored by the database: association list of
column name to value, in insertion order, without duplicate keys (Python dict
items). -/
abbrev RecordMap := List (String × Val)

/-- Assignment `d[k] = v` on a Python dict: overwrite the key if present, else append. -/
def dictSet (d : RecordMap) (k : String) (v : Val) : RecordMap :=
  if d.any (fun kv => kv.1 = k) then
    d.map (fun kv => if kv.1 = k then (k, v) else kv)
  else
    d ++ [(k, v)]

/-- Lookup `d.get(k)` on a Python dict. -/
def dictGet (d : RecordMap) (k : String) : Option Val :=
  (d.find? (fun kv => kv.1 = k)).map (fun kv => kv.2)

/-- One frame of a Python traceback as returned by `traceback.extract_tb`
(filename, line number, function name). -/
structure Frame where
  filename : String
  lineno   : Nat
  funcName : String
deriving DecidableEq, Repr

/-! ### `utils.py`: `extract_line_number_from_message_traceback`

The Python function first looks at `traceback.extract_tb(traceback_obj)`;
a `None` traceback yields the empty stack.  If the stack is non-empty it
returns the line number of the last (deepest) frame.  Otherwise it runs
`re.findall` with the pattern `File "(.*?)", line (\d+), in (.*)` over the
message and returns the integer of the second group of the last match, or
`None` when there is no match.

The scanner below is a faithful executable model of that specific pattern
under CPython `re` semantics: `findall` scans left to right, retries at the
next character after a failed position, and resumes after the end of each
match; `(.*?)` is non-greedy and cannot cross a newline; `(\d+)` is greedy
(backtracking it cannot help, since the following literal starts with a
comma, which is not a digit); the trailing `(.*)` greedily consumes the rest
of the line. -/

/-- Value of an ASCII digit string (most significant first). -/
def natOfDigits (ds : List Char) : Nat :=
  ds.foldl (fun acc c => acc * 10 + (c.toNat - 48)) 0

/-- Strip an expected literal prefix from a character list. -/
def stripPre : List Char → List Char → Option (List Char)
  | [], s => some s
  | _ :: _, [] => none
  | p :: ps, c :: cs => if p = c then stripPre ps cs else none

/-- The literal `", line ` separating the path group from the digits. -/
def sepLine : List Char := ("\x22, line ").data

/-- The literal `, in ` separating the digits from the function group. -/
def sepIn : List Char := (", in ").data

/-- The literal `File "` that anchors a match. -/
def filePre : List Char := ("File \x22").data

/-- One attempt to read `", line <digits>, in <rest-of-line>` exactly at the
current point of the non-greedy path group.  Returns `(consumed, lineNumber)`
for the characters consumed from here. -/
def tryTail (s : List Char) : Option (Nat × Nat) :=
  match stripPre sepLine s with
  | none => none
  | some s1 =>
    let digs := s1.takeWhile Char.isDigit
    if digs.isEmpty then none
    else
      match stripPre sepIn (s1.drop digs.length) with
      | none => none
      | some s3 =>
        let rest := s3.takeWhile (fun c => c ≠ '\n')
        some (sepLine.length + digs.length + sepIn.length + rest.length,
              natOfDigits digs)

/-- Continue a match attempt after the literal `File "`: extend the
non-greedy path group one character at a time (never across a newline),
and at each extension try `tryTail`.  Returns `(consumed, lineNumber)` for
the characters consumed after the anchor. -/
def afterFile : List Char → Option (Nat × Nat)
  | [] => none
  | c :: cs =>
    match tryTail (c :: cs) with
    | some r => some r
    | none =>
      if c = '\n' then none
      else (afterFile cs).map (fun r => (r.1 + 1, r.2))

/-- A full match attempt at one position: the anchor `File "` followed by
`afterFile`.  Returns `(consumed, lineNumber)`. -/
def tryMatchAt (s : List Char) : Option (Nat × Nat) :=
  match stripPre filePre s with
  | none => none
  | some s1 => (afterFile s1).map (fun r => (filePre.length + r.1, r.2))

theorem tryMatchAt_pos (s : List Char) (k n : Nat)
    (h : tryMatchAt s = some (k, n)) : 0 < k := by
  unfold tryMatchAt at h
  cases hs : stripPre filePre s with
  | none => simp [hs] at h
  | some s1 =>
    simp only [hs] at h
    cases ha : afterFile s1 with
    | none => simp [ha] at h
    | some r =>
      simp only [ha, Option.map_some', Option.some.injEq, Prod.mk.injEq] at h
      have h6 : filePre.length = 6 := rfl
      omega

/-- Scan of `re.findall` of the pattern over the text, keeping the line-number group
of each match, in order; fuelled so that it evaluates by kernel reduction
(the fuel is the text length, which `findAllAux_fuel` shows is always
enough). -/
def findAllAux : Nat → List Char → List Nat
  | 0, _ => []
  | _ + 1, [] => []
  | fuel + 1, c :: cs =>
    match tryMatchAt (c :: cs) with
    | some (k, n) => n :: findAllAux fuel ((c :: cs).drop k)
    | none => findAllAux fuel cs

/-- Any fuel at least the text length gives the same scan result, so
`findAllLineNums` below is the total scanner and the fuel is an artifact. -/
theorem findAllAux_fuel (f1 : Nat) : ∀ (f2 : Nat) (s : List Char),
    s.length ≤ f1 → s.length ≤ f2 → findAllAux f1 s = findAllAux f2 s := by
  induction f1 with
  | zero =>
    intro f2 s h1 _
    have hs : s = [] := List.eq_nil_of_length_eq_zero (Nat.le_zero.mp h1)
    subst hs
    cases f2 <;> simp [findAllAux]
  | succ a ih =>
    intro f2 s h1 h2
    cases s with
    | nil => cases f2 <;> simp [findAllAux]
    | cons c cs =>
      obtain ⟨b, rfl⟩ : ∃ b, f2 = b + 1 :=
        ⟨f2 - 1, by simp at h2; omega⟩
      simp only [findAllAux]
      cases hm : tryMatchAt (c :: cs) with
      | none =>
        exact ih b cs (by simp at h1; omega) (by simp at h2; omega)
      | some r =>
        obtain ⟨k, n⟩ := r
        have hk := tryMatchAt_pos _ _ _ hm
        have hlen : ((c :: cs).drop k).length ≤ a := by
          simp [List.length_drop] at h1 ⊢
          omega
        have hlen2 : ((c :: cs).drop k).length ≤ b := by
          simp [List.length_drop] at h2 ⊢
          omega
        dsimp only
        rw [ih b _ hlen hlen2]

/-- Model of `re.findall(pattern, message)` keeping group 2 (the line number) of each
match, in scan order. -/
def findAllLineNums (s : List Char) : List Nat :=
  findAllAux s.length s

/-- Model of `utils.extract_line_number_from_message_traceback`:
the traceback argument is modelled by the frame list `traceback.extract_tb`
would return (empty for `None`). -/
def extract_line_number_from_message_traceback
    (message : String) (tb : List Frame) : Option Nat :=
  match tb.getLast? with
  | some lastFrame => some lastFrame.lineno
  | none => (findAllLineNums message.data).getLast?

example : extract_line_number_from_message_traceback "" [] = none := by decide

example :
    extract_line_number_from_message_traceback "x" [⟨"a.py", 7, "f"⟩, ⟨"b.py", 12, "g"⟩]
      = some 12 := by decide

example :
    extract_line_number_from_message_traceback
      "File \x22a.py\x22, line 10, in f\nFile \x22b.py\x22, line 99, in g" [] = some 99 := by
  decide

/-! ### `db.py`: the `MyDB` store

The SQLite engine behind `MyDB` is modelled executably:
  * `DBState` is the backing file: whether the `logs` table exists, the rows
    (id paired with the inserted column mapping; columns never inserted are
    implicitly NULL), and the next AUTOINCREMENT id.
  * `execInsert` is `cursor.execute` of an `INSERT INTO logs (...) VALUES
    (...)` under `get_conn`: it fails when the connection cannot be opened,
    when the table is missing, when a named column is not in the schema
    (`OperationalError: table logs has no column named c`), or when a NOT
    NULL column is absent or NULL (`IntegrityError`).  On failure the
    transaction is rolled back, so the state is returned unchanged by the
    caller.  The model assumes the record does not name the `id` column
    itself (no caller in the repository does), so the row id is always the
    store-assigned AUTOINCREMENT value, as `cursor.lastrowid` reports.
  * A raised Python exception is a `PyExc` (type name and message). -/

/-- A Python exception: `type(e).__name__` and `str(e)`. -/
structure PyExc where
  ename : String
  emsg  : String
deriving DecidableEq, Repr

/-- The columns of the `logs` table, from the `CREATE TABLE` statement in
`MyDB.__init__`. -/
def logsColumns : List String :=
  ["id", "project_name", "project_version", "file_path", "line", "function",
   "line_code", "exception_type", "exception_value", "level_name", "level_no",
   "level_icon", "process_id", "process_name", "thread_id", "thread_name",
   "message", "module", "name", "time", "elapsed", "bug_fix_info",
   "bug_fix_commit", "bug_fix_date"]

/-- The NOT NULL columns of the `logs` table (the auto-assigned primary key
`id` excluded). -/
def notNullColumns : List String :=
  ["project_name", "project_version", "file_path", "line", "function",
   "line_code", "exception_type", "exception_value", "message", "module",
   "name", "time"]

/-- The logical state of the backing database file. -/
structure DBState where
  tableExists : Bool
  rows : List (Nat × RecordMap)
  nextId : Nat
deriving DecidableEq, Repr

/-- The row visible for a given id (`SELECT ... WHERE id = ?`). -/
def getRow (st : DBState) (id : Nat) : Option RecordMap :=
  (st.rows.find? (fun r => r.1 == id)).map (fun r => r.2)

/-- Is a NOT NULL constraint satisfied for column `c` by the record? -/
def notNullOk (rec : RecordMap) (c : String) : Bool :=
  match dictGet rec c with
  | some Val.null => false
  | some _ => true
  | none => false

/-- Model of `cursor.execute` of the parameterized single-row INSERT under `get_conn`:
commit on success (returning the new state and `cursor.lastrowid`), raise on
failure (the caller keeps the rolled-back, unchanged state). -/
def execInsert (connOk : Bool) (st : DBState) (rec : RecordMap) :
    Except PyExc (DBState × Nat) :=
  if connOk then
    if st.tableExists then
      match rec.find? (fun kv => !(decide (kv.1 ∈ logsColumns))) with
      | some kv =>
        .error ⟨"OperationalError", "table logs has no column named " ++ kv.1⟩
      | none =>
        if notNullColumns.all (fun c => notNullOk rec c) then
          .ok ({ st with rows := st.rows ++ [(st.nextId, rec)],
                         nextId := st.nextId + 1 }, st.nextId)
        else
          .error ⟨"IntegrityError", "NOT NULL constraint failed"⟩
    else
      .error ⟨"OperationalError", "no such table: logs"⟩
  else
    .error ⟨"OperationalError", "unable to open database file"⟩

/-- The statement `INSERT INTO logs (<columns>) VALUES (<placeholders>)` as built by
`insert_into_db` and `_emergency_log`. -/
def buildInsertSql (rec : RecordMap) : String :=
  "INSERT INTO logs (" ++ String.intercalate ", " (rec.map (fun kv => kv.1)) ++
    ") VALUES (" ++ String.intercalate ", " (rec.map (fun _ => "?")) ++ ")"

/-- Python `repr` of a storage value, as it appears inside a printed dict. -/
def pyReprVal : Val → String
  | Val.int n => toString n
  | Val.str s => "\x27" ++ s ++ "\x27"
  | Val.null => "None"

/-- Python `repr`/`str` of a dict, as printed by `print(..., db_dict)` and
f-strings. -/
def pyReprDict (rec : RecordMap) : String :=
  "\x7b" ++
    String.intercalate ", "
      (rec.map (fun kv => "\x27" ++ kv.1 ++ "\x27: " ++ pyReprVal kv.2)) ++
    "\x7d"

/-- Value of `__file__` inside `db.py` (an abstract constant path). -/
def dbDunderFile : String := "src/my_logger/db.py"

/-- Value of `__name__` inside `db.py` (an abstract constant module name). -/
def dbDunderName : String := "src.my_logger.db"

/-- Lift the extracted line number into a storage value (`None` becomes
NULL). -/
def optNatVal : Option Nat → Val
  | none => Val.null
  | some n => Val.int n

/-- The minimal schema-safe record `_emergency_log` builds, with the
wall-clock instant `datetime.now().timestamp()` abstracted as `now`. -/
def emergencyRecord (error_msg : String) (e : PyExc) (now : Int) : RecordMap :=
  [("project_name", Val.str "my_logger"),
   ("project_version", Val.str "unknown"),
   ("file_path", Val.str dbDunderFile),
   ("line", optNatVal (extract_line_number_from_message_traceback error_msg [])),
   ("function", Val.str "insert_into_db"),
   ("line_code", Val.str ""),
   ("exception_type", Val.str e.ename),
   ("exception_value", Val.str e.emsg),
   ("message", Val.str ("Failed to insert log: " ++ error_msg)),
   ("module", Val.str dbDunderName),
   ("name", Val.str "my_logger"),
   ("time", Val.int now)]

/-- Model of `MyDB._emergency_log(error_msg, e, old_sql, old_db_dict)`: one more
insert attempt with the schema-safe record; on success print the four
diagnostic lines and return the new id, on any failure print the single
critical-failure line and return `None`.  Result: (state, returned id,
console output). -/
def emergency_log (connOk : Bool) (st : DBState) (error_msg : String)
    (e : PyExc) (old_sql : String) (old_db_dict_repr : String) (now : Int) :
    DBState × Option Nat × List String :=
  match execInsert connOk st (emergencyRecord error_msg e now) with
  | .ok (st1, id) =>
    (st1, some id,
     ["Database error: " ++ error_msg,
      "sql attempted: " ++ old_sql,
      "data attempted: " ++ old_db_dict_repr,
      "a log will be created to my_logger project"])
  | .error eCritical =>
    (st, none, ["Critical failure: unable to log to database. " ++ eCritical.emsg])

/-- The argument Python passes to `insert_into_db`: either not a dict at all
(carrying its printed representation) or a dict. -/
inductive DbDictArg where
  | notMapping (printed : String) : DbDictArg
  | mapping (rec : RecordMap) : DbDictArg
deriving DecidableEq, Repr

/-- The validity check of `insert_into_db`:
`not isinstance(db_dict, dict) or len(db_dict) == 0`. -/
def invalidDbDict : DbDictArg → Bool
  | DbDictArg.notMapping _ => true
  | DbDictArg.mapping rec => rec.isEmpty

/-- Printed form of the argument (`print(..., db_dict)` / f-string). -/
def reprArg : DbDictArg → String
  | DbDictArg.notMapping printed => printed
  | DbDictArg.mapping rec => pyReprDict rec

/-- Model of `MyDB.insert_into_db(db_dict)`: reject an invalid argument with a console
report and a `None` id; otherwise try the INSERT, and on any exception fall
back to `_emergency_log` with `traceback.format_exc()` (the `tbText`
parameter), the raised exception, the attempted SQL and the attempted data.
Result: (state, returned id, console output). -/
def insert_into_db (connOkPrimary connOkEmergency : Bool) (tbText : String)
    (st : DBState) (arg : DbDictArg) (now : Int) :
    DBState × Option Nat × List String :=
  match arg with
  | DbDictArg.notMapping printed =>
    (st, none, ["insert_into_db called with invalid db_dict:  " ++ printed])
  | DbDictArg.mapping rec =>
    if rec.isEmpty then
      (st, none, ["insert_into_db called with invalid db_dict:  " ++ pyReprDict rec])
    else
      match execInsert connOkPrimary st rec with
      | .ok (st1, id) => (st1, some id, [])
      | .error e =>
        emergency_log connOkEmergency st tbText e (buildInsertSql rec)
          (pyReprDict rec) now

/-- Model of `MyDB.__init__` with an existing parent directory: open a connection and
run `CREATE TABLE IF NOT EXISTS logs (...)`.  Failure to open the backing
file is fatal (propagated); otherwise the statement only ensures the table
exists and never touches rows. -/
def myDBInit (connOk : Bool) (st : DBState) : Except PyExc DBState :=
  if connOk then .ok { st with tableExists := true }
  else .error ⟨"OperationalError", "unable to open database file"⟩

/-! ### `db.py`: `MyDB.sqlite_sink`, and `logger.py`: `MyLogger`

The loguru message handed to the sink is modelled by the parts the sink
reads: the formatted text `str(message)` and the record.  The record always
carries an exception here, because `sqlite_sink` is only installed by
`log_exception`, which emits via `logger.exception(...)` from inside an
`except` block (with no active exception the source would fault on
`v.type.__name__`; the default sink isolation of loguru would contain that too).
`linecache.getline(...).strip()` is the environment parameter `lineCode`. -/

/-- A loguru severity level (`record["level"]`). -/
structure LoguruLevel where
  levelName : String
  no : Int
  icon : String
deriving DecidableEq, Repr

/-- The exception attached to a loguru record: `type.__name__`,
`str(value)`, and the frames `traceback.extract_tb` yields for its
traceback. -/
structure LoguruException where
  etype : String
  evalue : String
  tb : List Frame
deriving DecidableEq, Repr

/-- The parts of a loguru record `sqlite_sink` reads, plus the `extra`
mapping bound by `log_exception` (`print_msg`, `project_name`,
`project_version`).  `elapsed` is `total_seconds()` and `time` is
`timestamp()`, both abstracted to integers. -/
structure LoguruRecord where
  elapsed : Int
  exc : LoguruException
  filePath : String
  functionName : String
  level : LoguruLevel
  line : Nat
  message : String
  moduleName : String
  name : String
  processId : Int
  processName : String
  threadId : Int
  threadName : String
  time : Int
  printMsg : String
  projectName : String
  projectVersion : String
deriving DecidableEq, Repr

/-- Model of `db_dict.pop(k, None)` (the returned value is unused by the source). -/
def dictRemove (d : RecordMap) (k : String) : RecordMap :=
  d.filter (fun kv => kv.1 != k)

/-- The `str.format` substitution of the two acknowledgement fields for the
acknowledgement templates of this repository (which contain no other
fields). -/
def pyFormat (template logId cmd : String) : String :=
  (template.replace "\x7blog_id\x7d" logId).replace "\x7bcommand_line\x7d" cmd

/-- The literal second argument of the `format` call in `sqlite_sink`. -/
def commandLineStr : String := "\x22my_logger -h\x22 for more info"

/-- Python `str` of the returned id (`str(id)`): `None` prints as `"None"`. -/
def pyStrOptNat : Option Nat → String
  | none => "None"
  | some n => toString n

/-- The record mapping `sqlite_sink` builds before inserting, following the
source line by line: the extracted `line`, the filtered record items in
the record order of loguru, the `extra` update, `line_code`, the full formatted
message, and finally the `print_msg` pop. -/
def sinkDbDict (msgText : String) (record : LoguruRecord) (lineCode : String) :
    RecordMap :=
  let d1 := dictSet [] "line"
    (optNatVal (extract_line_number_from_message_traceback msgText record.exc.tb))
  let d2 := dictSet d1 "elapsed" (Val.int record.elapsed)
  let d3 := dictSet (dictSet d2 "exception_type" (Val.str record.exc.etype))
    "exception_value" (Val.str record.exc.evalue)
  let d4 := dictSet d3 "file_path" (Val.str record.filePath)
  let d5 := dictSet d4 "function" (Val.str record.functionName)
  let d6 := dictSet (dictSet (dictSet d5 "level_name" (Val.str record.level.levelName))
    "level_no" (Val.int record.level.no)) "level_icon" (Val.str record.level.icon)
  let d7 := dictSet d6 "message" (Val.str record.message)
  let d8 := dictSet d7 "module" (Val.str record.moduleName)
  let d9 := dictSet d8 "name" (Val.str record.name)
  let d10 := dictSet (dictSet d9 "process_id" (Val.int record.processId))
    "process_name" (Val.str record.processName)
  let d11 := dictSet (dictSet d10 "thread_id" (Val.int record.threadId))
    "thread_name" (Val.str record.threadName)
  let d12 := dictSet d11 "time" (Val.int record.time)
  let d13 := dictSet (dictSet (dictSet d12 "print_msg" (Val.str record.printMsg))
    "project_name" (Val.str record.projectName))
    "project_version" (Val.str record.projectVersion)
  let d14 := dictSet d13 "line_code" (Val.str lineCode)
  let d15 := dictSet d14 "message" (Val.str msgText)
  dictRemove d15 "print_msg"

/-- Model of `MyDB.sqlite_sink(message)`: build the record mapping, insert it (with
its never-raising fallback), then print the acknowledgement with
`str(id)` substituted for `{log_id}`.  Result: (state, id returned by the
insert, console output). -/
def sqlite_sink (msgText : String) (record : LoguruRecord) (lineCode : String)
    (connOkPrimary connOkEmergency : Bool) (tbText : String)
    (st : DBState) (now : Int) : DBState × Option Nat × List String :=
  let d := sinkDbDict msgText record lineCode
  let r := insert_into_db connOkPrimary connOkEmergency tbText st
    (DbDictArg.mapping d) now
  (r.1, r.2.1,
   r.2.2 ++ [pyFormat record.printMsg (pyStrOptNat r.2.1) commandLineStr])

/-- The process-global loguru logger: sink ids currently registered and the
next id `logger.add` will assign. -/
structure LoguruState where
  sinks : List Nat
  nextSinkId : Nat
deriving DecidableEq, Repr

/-- Call `logger.remove()` with no argument: drop every sink. -/
def loguruRemoveAll (lg : LoguruState) : LoguruState :=
  { lg with sinks := [] }

/-- Call `logger.add(sink, ...)`: register a sink and return its handle. -/
def loguruAdd (lg : LoguruState) : LoguruState × Nat :=
  ({ sinks := lg.sinks ++ [lg.nextSinkId], nextSinkId := lg.nextSinkId + 1 },
   lg.nextSinkId)

/-- Call `logger.remove(sink)`: drop one sink by handle. -/
def loguruRemoveId (lg : LoguruState) (i : Nat) : LoguruState :=
  { lg with sinks := lg.sinks.filter (fun s => s != i) }

/-- The environment facts a capture reads from the outside world. -/
structure CaptureEnv where
  /-- `"PYTEST_CURRENT_TEST" in os.environ`, re-evaluated at call time. -/
  pytestRunning : Bool
  /-- Can the primary insert open its connection? -/
  connOkPrimary : Bool
  /-- Can the emergency insert open its connection? -/
  connOkEmergency : Bool
  /-- What `traceback.format_exc()` returns inside `insert_into_db`. -/
  tbText : String
  /-- `str(message)`: the formatted diagnostic loguru hands the sink
  (header plus exception text). -/
  msgText : String
  /-- The loguru record of the current exception (before `bind`). -/
  record : LoguruRecord
  /-- `linecache.getline(...).strip()`. -/
  lineCode : String
  /-- `datetime.now().timestamp()` abstracted. -/
  now : Int
deriving Repr

/-- Model of `MyLogger.log_exception(one_time_message, header_exc)`: do nothing under
pytest; otherwise pick the message template, remove every sink from the
global logger, add `sqlite_sink`, emit the current exception through it with
the bound extras, then remove the temporary sink.  `header_exc` only affects
the formatted text, which is `env.msgText`.  Result: (loguru state, db
state, console output). -/
def log_exception (env : CaptureEnv) (stdMsg projectName projectVersion : String)
    (oneTimeMessage : Option String) (lg : LoguruState) (st : DBState) :
    LoguruState × DBState × List String :=
  if env.pytestRunning then (lg, st, [])
  else
    let printMsg := match oneTimeMessage with
      | some m => m
      | none => stdMsg
    let lg1 := loguruRemoveAll lg
    let added := loguruAdd lg1
    let boundRecord := { env.record with
      printMsg := printMsg,
      projectName := projectName,
      projectVersion := projectVersion }
    let r := sqlite_sink env.msgText boundRecord env.lineCode
      env.connOkPrimary env.connOkEmergency env.tbText st env.now
    let lg3 := loguruRemoveId added.1 added.2
    (lg3, r.1, r.2.2)

/-- The outcome of calling a wrapped Python callable. -/
inductive PyResult (α : Type) where
  | ok (v : α) : PyResult α
  | exn (e : PyExc) : PyResult α
deriving DecidableEq, Repr

/-- The `sync_wrapper` built by `MyLogger.log_exception_decorator(re_raise,
one_time_message, header_exc)` (the async wrapper has an identical body): pass
a normal return through; on an exception, run `log_exception` and then
re-raise the original exception exactly when `re_raise` is set, else return
`None`.  Result: (wrapper outcome, loguru state, db state, console
output). -/
def sync_wrapper {α : Type} (env : CaptureEnv)
    (stdMsg projectName projectVersion : String) (re_raise : Bool)
    (oneTimeMessage : Option String) (funcResult : PyResult α)
    (lg : LoguruState) (st : DBState) :
    PyResult (Option α) × LoguruState × DBState × List String :=
  match funcResult with
  | PyResult.ok v => (PyResult.ok (some v), lg, st, [])
  | PyResult.exn e =>
    let r := log_exception env stdMsg projectName projectVersion
      oneTimeMessage lg st
    if re_raise then (PyResult.exn e, r.1, r.2.1, r.2.2)
    else (PyResult.ok none, r.1, r.2.1, r.2.2)

/-! ### `cli.py`: `update_commit` and `export_logs` -/

/-- An optional string parameter as stored (`None` becomes NULL). -/
def optStrVal : Option String → Val
  | none => Val.null
  | some s => Val.str s

/-- Model of `cli.update_commit(db_path, id, commit_hash, bug_fix_info)`:
`UPDATE logs SET bug_fix_commit = ?, bug_fix_info = ?, bug_fix_date =
CURRENT_TIMESTAMP WHERE id = ?` followed by a confirmation print.
`CURRENT_TIMESTAMP` is the abstract instant `nowTs`.  Result: (state,
console output). -/
def update_commit (st : DBState) (id : Nat)
    (commit_hash bug_fix_info : Option String) (nowTs : String) :
    DBState × List String :=
  ({ st with rows := st.rows.map (fun r =>
      if r.1 == id then
        (r.1,
         dictSet (dictSet (dictSet r.2
           "bug_fix_commit" (optStrVal commit_hash))
           "bug_fix_info" (optStrVal bug_fix_info))
           "bug_fix_date" (Val.str nowTs))
      else r) },
   ["Log ID " ++ toString id ++ " updated!"])

/-- The column list of the SELECT statement `export_logs` builds:
`SELECT id, exception_text FROM logs WHERE ...`. -/
def exportSelectCols : List String := ["id", "exception_text"]

/-- Does a row pass the WHERE clause built from the optional filters
(`project_name = ?`, `id IN (...)`, conjunction when both are given)? -/
def rowMatches (projectName : Option String) (ids : Option (List Nat))
    (r : Nat × RecordMap) : Bool :=
  (match projectName with
   | none => true
   | some p => dictGet r.2 "project_name" == some (Val.str p)) &&
  (match ids with
   | none => true
   | some l => l.contains r.1)

/-- The value a SELECT sees for one named column of a row (a column never
inserted reads as NULL). -/
def selectVal (r : Nat × RecordMap) (c : String) : Val :=
  if c == "id" then Val.int r.1
  else match dictGet r.2 c with
    | some v => v
    | none => Val.null

/-- Model of `conn.execute` of the SELECT: error on a column name that is not in the
schema (`OperationalError: no such column: c`), else the projected matching
rows in order. -/
def execSelect (connOk : Bool) (st : DBState) (cols : List String)
    (projectName : Option String) (ids : Option (List Nat)) :
    Except PyExc (List (List (String × Val))) :=
  if connOk then
    if st.tableExists then
      match cols.find? (fun c => !(decide (c ∈ logsColumns))) with
      | some c => .error ⟨"OperationalError", "no such column: " ++ c⟩
      | none =>
        .ok ((st.rows.filter (rowMatches projectName ids)).map
          (fun r => cols.map (fun c => (c, selectVal r c))))
    else
      .error ⟨"OperationalError", "no such table: logs"⟩
  else
    .error ⟨"OperationalError", "unable to open database file"⟩

/-- Render one fetched row the way the export loop writes it: one
`key: value` line per selected column, a blank line at the end. -/
def renderExportRow (row : List (String × Val)) : String :=
  String.join (row.map (fun kv => kv.1 ++ ": " ++ pyReprVal kv.2 ++ "\n")) ++ "\n"

/-- Model of `cli.export_logs(db_path, folder_path, project_name, ids)`: run the
SELECT; an exception propagates to the caller with nothing written or
printed.  On no rows, print the notice; otherwise write one file named by
the first selected value of each row into the folder and print the summary.
Result on success: (written files as (path, content) pairs, console
output). -/
def export_logs (connOk : Bool) (st : DBState) (folder_path : String)
    (project_name : Option String) (ids : Option (List Nat)) :
    Except PyExc (List (String × String) × List String) :=
  match execSelect connOk st exportSelectCols project_name ids with
  | .error e => .error e
  | .ok logs =>
    if logs.isEmpty then
      .ok ([], ["No logs found for the given criteria."])
    else
      .ok (logs.map (fun row =>
             (folder_path ++ "/" ++
                pyReprVal ((row.head?.map (fun kv => kv.2)).getD Val.null) ++
                ".log",
              renderExportRow row)),
           ["Exported " ++ toString logs.length ++ " logs to " ++ folder_path])

/-! ### Sample inputs used by the witnesses -/

/-- A sample loguru level. -/
def sampleLevel : LoguruLevel := ⟨"ERROR", 40, "X"⟩

/-- A sample captured exception. -/
def sampleExc : LoguruException := ⟨"ValueError", "boom", [⟨"app.py", 10, "f"⟩]⟩

/-- A sample loguru record. -/
def sampleRecord : LoguruRecord :=
  ⟨0, sampleExc, "app.py", "f", sampleLevel, 10, "diag", "app", "app",
   1, "MainProcess", 2, "MainThread", 0,
   "ack \x7blog_id\x7d", "demo", "1.0"⟩

/-- A sample capture environment outside pytest with healthy connections. -/
def sampleEnv : CaptureEnv :=
  ⟨false, true, true, "tb", "diag", sampleRecord, "x = 1", 0⟩

/-- A freshly constructed, empty store. -/
def sampleDB : DBState := ⟨true, [], 1⟩

/-- A loguru logger with one pre-existing host-application sink. -/
def sampleLg : LoguruState := ⟨[7], 8⟩

/-- A store holding one record, for the annotation witness. -/
def c7Store : DBState := ⟨true, [(1, [("project_name", Val.str "demo")])], 2⟩

/-- A row with only the fields the export scenario distinguishes. -/
def demoRow (p m : String) : RecordMap :=
  [("project_name", Val.str p), ("message", Val.str m)]

/-- A store with exactly 3 records for project "demo" and 2 for another
project, the store of the export scenario. -/
def demoStore : DBState :=
  ⟨true,
   [(1, demoRow "demo" "m1"), (2, demoRow "demo" "m2"), (3, demoRow "demo" "m3"),
    (4, demoRow "other" "m4"), (5, demoRow "other" "m5")], 6⟩

/-- A `traceback.format_exc()` shaped diagnostic, as seen by
`_emergency_log` after an unknown-column failure. -/
def c2tb : String :=
  "Traceback (most recent call last):\n  File \x22src/my_logger/db.py\x22, line 111, " ++
    "in insert_into_db\nsqlite3.OperationalError: table logs has no column named any"

/-! ### Shared dictionary lemmas -/

theorem dictGet_cons_of_pos (kv : String × Val) (d : RecordMap) (k : String)
    (h : kv.1 = k) : dictGet (kv :: d) k = some kv.2 := by
  unfold dictGet
  rw [List.find?_cons_of_pos _ (by simpa using h)]
  rfl

theorem dictGet_cons_of_neg (kv : String × Val) (d : RecordMap) (k : String)
    (h : ¬kv.1 = k) : dictGet (kv :: d) k = dictGet d k := by
  unfold dictGet
  rw [List.find?_cons_of_neg _ (by simpa using h)]

theorem dictGet_set_map_self (k : String) (v : Val) :
    ∀ d : RecordMap, d.any (fun kv => kv.1 = k) = true →
      dictGet (d.map (fun kv => if kv.1 = k then (k, v) else kv)) k = some v := by
  intro d
  induction d with
  | nil => intro h; simp at h
  | cons kv d ih =>
    intro h
    by_cases hk : kv.1 = k
    · rw [List.map_cons, if_pos hk, dictGet_cons_of_pos _ _ _ rfl]
    · have h2 : d.any (fun kv => kv.1 = k) = true := by
        rw [List.any_cons] at h
        rcases Bool.or_eq_true_iff.mp h with h1 | h1
        · exact absurd (of_decide_eq_true h1) hk
        · exact h1
      rw [List.map_cons, if_neg hk, dictGet_cons_of_neg _ _ _ hk]
      exact ih h2

theorem dictGet_append_single_self (k : String) (v : Val) (d : RecordMap)
    (h : ¬d.any (fun kv => kv.1 = k) = true) :
    dictGet (d ++ [(k, v)]) k = some v := by
  induction d with
  | nil => exact dictGet_cons_of_pos _ _ _ rfl
  | cons kv d ih =>
    rw [List.any_cons, Bool.or_eq_true_iff] at h
    push_neg at h
    rw [List.cons_append, dictGet_cons_of_neg _ _ _ (fun hc => h.1 (by simpa using hc))]
    exact ih h.2

/-- Setting `d[k] = v` then reading `k` gives `v`. -/
theorem dictGet_dictSet_self (d : RecordMap) (k : String) (v : Val) :
    dictGet (dictSet d k v) k = some v := by
  unfold dictSet
  by_cases h : d.any (fun kv => kv.1 = k) = true
  · rw [if_pos h]; exact dictGet_set_map_self k v d h
  · rw [if_neg h]; exact dictGet_append_single_self k v d h

theorem dictGet_set_map_ne (k : String) (v : Val) (k' : String) (hne : k' ≠ k) :
    ∀ d : RecordMap,
      dictGet (d.map (fun kv => if kv.1 = k then (k, v) else kv)) k'
        = dictGet d k' := by
  intro d
  induction d with
  | nil => rfl
  | cons kv d ih =>
    by_cases hk : kv.1 = k
    · rw [List.map_cons, if_pos hk,
        dictGet_cons_of_neg (k, v) _ _ (fun hc => hne hc.symm),
        dictGet_cons_of_neg kv _ _ (fun hc => hne (by rw [← hc, hk]))]
      exact ih
    · rw [List.map_cons, if_neg hk]
      by_cases hq : kv.1 = k'
      · rw [dictGet_cons_of_pos _ _ _ hq, dictGet_cons_of_pos _ _ _ hq]
      · rw [dictGet_cons_of_neg _ _ _ hq, dictGet_cons_of_neg _ _ _ hq]
        exact ih

theorem dictGet_append_single_ne (k : String) (v : Val) (k' : String)
    (hne : k' ≠ k) :
    ∀ d : RecordMap, dictGet (d ++ [(k, v)]) k' = dictGet d k' := by
  intro d
  induction d with
  | nil =>
    rw [List.nil_append, dictGet_cons_of_neg (k, v) _ _ (fun hc => hne hc.symm)]
  | cons kv d ih =>
    by_cases hq : kv.1 = k'
    · rw [List.cons_append, dictGet_cons_of_pos _ _ _ hq,
        dictGet_cons_of_pos _ _ _ hq]
    · rw [List.cons_append, dictGet_cons_of_neg _ _ _ hq,
        dictGet_cons_of_neg _ _ _ hq]
      exact ih

/-- Setting `d[k] = v` leaves every other key unread. -/
theorem dictGet_dictSet_ne (d : RecordMap) (k : String) (v : Val) (k' : String)
    (hne : k' ≠ k) : dictGet (dictSet d k v) k' = dictGet d k' := by
  unfold dictSet
  split
  · exact dictGet_set_map_ne k v k' hne d
  · exact dictGet_append_single_ne k v k' hne d

/-- Popping key `k` leaves every other key unread. -/
theorem dictGet_dictRemove_ne (d : RecordMap) (k k' : String) (hne : k' ≠ k) :
    dictGet (dictRemove d k) k' = dictGet d k' := by
  unfold dictRemove
  induction d with
  | nil => rfl
  | cons kv d ih =>
    by_cases hk : kv.1 = k
    · rw [List.filter_cons_of_neg (by simp [hk]),
        dictGet_cons_of_neg kv _ _ (fun hc => hne (by rw [← hc, hk]))]
      exact ih
    · rw [List.filter_cons_of_pos (by simp [hk])]
      by_cases hq : kv.1 = k'
      · rw [dictGet_cons_of_pos _ _ _ hq, dictGet_cons_of_pos _ _ _ hq]
      · rw [dictGet_cons_of_neg _ _ _ hq, dictGet_cons_of_neg _ _ _ hq]
        exact ih

/-- A readable key means the dict is not empty. -/
theorem ne_nil_of_dictGet_some {d : RecordMap} {k : String} {v : Val}
    (h : dictGet d k = some v) : d.isEmpty = false := by
  cases d with
  | nil => simp [dictGet] at h
  | cons kv d => rfl

/-! ### The claims -/

/-- C1: no exception of the capture path (field extraction, record building,
primary insert, emergency insert, acknowledgement resolution and printing —
all of which run inside `log_exception`, which is total here for every
environment, in particular for failing primary and emergency connections)
crosses the wrapper; the outcome of the wrapper is an exception exactly when the
wrapped callable raised that very exception and re-raise was requested. -/
theorem claim_C1 {α : Type} (env : CaptureEnv)
    (stdMsg projectName projectVersion : String) (re_raise : Bool)
    (oneTimeMessage : Option String) (funcResult : PyResult α)
    (lg : LoguruState) (st : DBState) (e' : PyExc) :
    (sync_wrapper env stdMsg projectName projectVersion re_raise oneTimeMessage
        funcResult lg st).1 = PyResult.exn e'
      ↔ funcResult = PyResult.exn e' ∧ re_raise = true := by
  cases funcResult <;> cases re_raise <;> simp [sync_wrapper]

/-- C3: whenever the own write attempt of the emergency insert fails,
`_emergency_log` returns `None`, prints exactly one "Critical failure" line,
adds no row (the state is unchanged), and raises nothing (it is a total
function into a normal result). -/
theorem claim_C3 (connOk : Bool) (st : DBState) (error_msg : String)
    (e : PyExc) (old_sql old_data : String) (now : Int) (ec : PyExc)
    (h : execInsert connOk st (emergencyRecord error_msg e now)
          = Except.error ec) :
    emergency_log connOk st error_msg e old_sql old_data now
      = (st, none,
         ["Critical failure: unable to log to database. " ++ ec.emsg]) := by
  unfold emergency_log
  rw [h]

/-- Witness for C3 at an unusable connection. -/
theorem claim_C3_witness :
    emergency_log false sampleDB "boom" ⟨"Exception", "another error"⟩
        "old_sql" "\x7b\x7d" 0
      = (sampleDB, none,
         ["Critical failure: unable to log to database. " ++
            "unable to open database file"]) :=
  claim_C3 false sampleDB "boom" ⟨"Exception", "another error"⟩ "old_sql"
    "\x7b\x7d" 0 ⟨"OperationalError", "unable to open database file"⟩ rfl

/-- C6: an empty dict or a non-dict argument makes `insert_into_db` return
`None`, print the violation report, attempt no write (the state, hence the
row count, is unchanged) and raise nothing. -/
theorem claim_C6 (connOkPrimary connOkEmergency : Bool) (tbText : String)
    (st : DBState) (arg : DbDictArg) (now : Int)
    (h : invalidDbDict arg = true) :
    insert_into_db connOkPrimary connOkEmergency tbText st arg now
      = (st, none,
         ["insert_into_db called with invalid db_dict:  " ++ reprArg arg]) := by
  cases arg with
  | notMapping printed => rfl
  | mapping rec =>
    have hrec : rec.isEmpty = true := h
    simp [insert_into_db, reprArg, hrec]

/-- Witness for C6 at the empty dict. -/
theorem claim_C6_witness :
    insert_into_db true true "tb" sampleDB (DbDictArg.mapping []) 0
      = (sampleDB, none,
         ["insert_into_db called with invalid db_dict:  " ++
            reprArg (DbDictArg.mapping [])]) :=
  claim_C6 true true "tb" sampleDB (DbDictArg.mapping []) 0 rfl

/-- C8: constructing the store twice against the same backing file raises
nothing and leaves every row (and the id counter) unchanged; the second
construction is the identity on the state the first one produced. -/
theorem claim_C8 (st : DBState) :
    ∃ st1 : DBState, myDBInit true st = Except.ok st1 ∧ st1.rows = st.rows
      ∧ st1.nextId = st.nextId ∧ myDBInit true st1 = Except.ok st1 :=
  ⟨{ st with tableExists := true }, rfl, rfl, rfl, rfl⟩

/-- C9: outside a test run, `log_exception` first removes every sink of the
process-global logger, adds its own temporary sink and removes it again, so
afterwards the global logger has zero sinks — whatever sinks the host
application had registered are gone. -/
theorem claim_C9 (env : CaptureEnv)
    (stdMsg projectName projectVersion : String)
    (oneTimeMessage : Option String) (lg : LoguruState) (st : DBState)
    (h : env.pytestRunning = false) :
    (log_exception env stdMsg projectName projectVersion oneTimeMessage
        lg st).1.sinks = [] := by
  have h1 : (log_exception env stdMsg projectName projectVersion
      oneTimeMessage lg st).1
      = loguruRemoveId (loguruAdd (loguruRemoveAll lg)).1
          (loguruAdd (loguruRemoveAll lg)).2 := by
    unfold log_exception
    rw [h]
    rfl
  rw [h1]
  simp [loguruRemoveAll, loguruAdd, loguruRemoveId, List.filter]

/-- Witness for C9: a host logger with a pre-registered sink ends with no
sinks at all. -/
theorem claim_C9_witness :
    (log_exception sampleEnv "std" "demo" "1.0" none sampleLg sampleDB).1.sinks
      = [] :=
  claim_C9 sampleEnv "std" "demo" "1.0" none sampleLg sampleDB rfl

/-- C4: line resolution.  With a non-empty propagation stack the extracted
line is the line number of the last (deepest) frame; with an empty stack it is
the line number of the last pattern match in the message (`getLast?` of the
scan, which is `none` exactly when there is no match), and no case is an
error. -/
theorem claim_C4 (message : String) (tb : List Frame) :
    (∀ f : Frame, tb.getLast? = some f →
      extract_line_number_from_message_traceback message tb = some f.lineno)
    ∧ (tb = [] →
      extract_line_number_from_message_traceback message tb
        = (findAllLineNums message.data).getLast?) := by
  constructor
  · intro f hf
    unfold extract_line_number_from_message_traceback
    rw [hf]
  · intro htb
    subst htb
    rfl

/-- A diagnostic containing two pattern matches, for the C4 witness. -/
def c4msg : String :=
  "File \x22a.py\x22, line 10, in f\nFile \x22b.py\x22, line 99, in g"

/-- Witness for C4: a two-frame stack resolves to the line of the deepest frame;
without a stack, a message with two matches resolves to the last match. -/
theorem claim_C4_witness :
    extract_line_number_from_message_traceback "x"
        [⟨"a.py", 7, "f"⟩, ⟨"b.py", 12, "g"⟩] = some 12
    ∧ extract_line_number_from_message_traceback c4msg [] = some 99 :=
  ⟨(claim_C4 "x" [⟨"a.py", 7, "f"⟩, ⟨"b.py", 12, "g"⟩]).1 ⟨"b.py", 12, "g"⟩
      (by decide),
   ((claim_C4 c4msg []).2 rfl).trans (by decide)⟩

/-- C5 (the actual behaviour of the code): against any store with the schema the
repository itself creates, `export_logs` raises `OperationalError` — its
SELECT names the column `exception_text`, which does not exist — so it
writes no file and prints nothing, for every filter. -/
theorem claim_C5 (st : DBState) (folder : String) (project : Option String)
    (ids : Option (List Nat)) (h : st.tableExists = true) :
    export_logs true st folder project ids
      = Except.error ⟨"OperationalError", "no such column: exception_text"⟩ := by
  have hsel : execSelect true st exportSelectCols project ids
      = Except.error ⟨"OperationalError", "no such column: exception_text"⟩ := by
    unfold execSelect
    rw [h]
    rfl
  unfold export_logs
  rw [hsel]

/-- Witness for C5: the store of the export scenario (3 rows for "demo", 2
for another project) makes `export` raise instead of writing 3 files. -/
theorem claim_C5_witness :
    export_logs true demoStore "out" (some "demo") none
      = Except.error ⟨"OperationalError", "no such column: exception_text"⟩ :=
  claim_C5 demoStore "out" (some "demo") none rfl

/-- The insert of the emergency record succeeds on a healthy connection whenever
the error description yields a line number (so the NOT NULL constraint on
`line` holds; every other NOT NULL column of the emergency record is a
non-null literal). -/
theorem execInsert_emergencyRecord (st : DBState) (em : String) (e : PyExc)
    (now : Int) (n : Nat) (hTable : st.tableExists = true)
    (hLine : extract_line_number_from_message_traceback em [] = some n) :
    execInsert true st (emergencyRecord em e now)
      = Except.ok
          ({ st with
              rows := st.rows ++ [(st.nextId, emergencyRecord em e now)],
              nextId := st.nextId + 1 }, st.nextId) := by
  unfold execInsert emergencyRecord
  rw [hTable, hLine]
  rfl

/-- C2: inserting a non-empty record that names a column absent from the
schema does not raise: it returns the store-assigned (non-null) id, the row
visible for that id afterwards is the emergency record (its `project_name`
is "my_logger"), and the console output contains the originally attempted
SQL and the attempted data. -/
theorem claim_C2 (tbText : String) (st : DBState) (rec : RecordMap)
    (now : Int) (n : Nat)
    (hTable : st.tableExists = true)
    (hIds : ∀ p ∈ st.rows, p.1 < st.nextId)
    (hBad : rec.any (fun kv => !(decide (kv.1 ∈ logsColumns))) = true)
    (hLine : extract_line_number_from_message_traceback tbText [] = some n) :
    (insert_into_db true true tbText st (DbDictArg.mapping rec) now).2.1
        = some st.nextId
    ∧ (getRow (insert_into_db true true tbText st
          (DbDictArg.mapping rec) now).1 st.nextId).bind
        (fun row => dictGet row "project_name") = some (Val.str "my_logger")
    ∧ ("sql attempted: " ++ buildInsertSql rec)
        ∈ (insert_into_db true true tbText st (DbDictArg.mapping rec) now).2.2
    ∧ ("data attempted: " ++ pyReprDict rec)
        ∈ (insert_into_db true true tbText st (DbDictArg.mapping rec) now).2.2 := by
  have hne : rec.isEmpty = false := by
    cases rec with
    | nil => simp at hBad
    | cons kv l => rfl
  obtain ⟨kv, hkvmem, hkvbad⟩ := List.any_eq_true.mp hBad
  cases hfind : rec.find? (fun kv => !(decide (kv.1 ∈ logsColumns))) with
  | none =>
    rw [List.find?_eq_none] at hfind
    exact absurd hkvbad (by simpa using hfind kv hkvmem)
  | some kv0 =>
    have hexecP : execInsert true st rec
        = Except.error
            ⟨"OperationalError", "table logs has no column named " ++ kv0.1⟩ := by
      unfold execInsert
      rw [hTable, hfind]
      rfl
    have hexecE := execInsert_emergencyRecord st tbText
      ⟨"OperationalError", "table logs has no column named " ++ kv0.1⟩ now n
      hTable hLine
    have hinsert : insert_into_db true true tbText st (DbDictArg.mapping rec) now
        = ({ st with
              rows := st.rows ++ [(st.nextId, emergencyRecord tbText
                ⟨"OperationalError", "table logs has no column named " ++ kv0.1⟩ now)],
              nextId := st.nextId + 1 }, some st.nextId,
           ["Database error: " ++ tbText,
            "sql attempted: " ++ buildInsertSql rec,
            "data attempted: " ++ pyReprDict rec,
            "a log will be created to my_logger project"]) := by
      simp only [insert_into_db]
      rw [hne]
      simp only [Bool.false_eq_true, if_false, hexecP]
      unfold emergency_log
      rw [hexecE]
    rw [hinsert]
    refine ⟨rfl, ?_, by simp, by simp⟩
    have hrow : getRow
        { st with
          rows := st.rows ++ [(st.nextId, emergencyRecord tbText
            ⟨"OperationalError", "table logs has no column named " ++ kv0.1⟩ now)],
          nextId := st.nextId + 1 } st.nextId
        = some (emergencyRecord tbText
            ⟨"OperationalError", "table logs has no column named " ++ kv0.1⟩ now) := by
      unfold getRow
      rw [List.find?_append]
      have h1 : st.rows.find? (fun r => r.1 == st.nextId) = none := by
        rw [List.find?_eq_none]
        intro p hp
        have hlt := hIds p hp
        simp [Nat.ne_of_lt hlt]
      rw [h1]
      simp [List.find?]
    rw [hrow]
    rfl

set_option maxRecDepth 100000 in
/-- Witness for C2: inserting `{"any": 1}` (the test case of the repository itself)
into a fresh store falls back to the emergency record with id 1. -/
theorem claim_C2_witness :
    (insert_into_db true true c2tb sampleDB
        (DbDictArg.mapping [("any", Val.int 1)]) 0).2.1 = some 1
    ∧ (getRow (insert_into_db true true c2tb sampleDB
          (DbDictArg.mapping [("any", Val.int 1)]) 0).1 1).bind
        (fun row => dictGet row "project_name") = some (Val.str "my_logger")
    ∧ ("sql attempted: " ++ buildInsertSql [("any", Val.int 1)])
        ∈ (insert_into_db true true c2tb sampleDB
            (DbDictArg.mapping [("any", Val.int 1)]) 0).2.2
    ∧ ("data attempted: " ++ pyReprDict [("any", Val.int 1)])
        ∈ (insert_into_db true true c2tb sampleDB
            (DbDictArg.mapping [("any", Val.int 1)]) 0).2.2 :=
  claim_C2 c2tb sampleDB [("any", Val.int 1)] 0 111 rfl (by simp [sampleDB])
    (by decide) (by decide)

/-- The per-row UPDATE of `update_commit` commutes with row lookup: the row
found by id afterwards is the old row with the three remediation columns
set. -/
theorem find?_map_update (id : Nat) (g : RecordMap → RecordMap) :
    ∀ l : List (Nat × RecordMap),
      (l.map (fun r => if r.1 == id then (r.1, g r.2) else r)).find?
          (fun r => r.1 == id)
        = (l.find? (fun r => r.1 == id)).map (fun r => (r.1, g r.2)) := by
  intro l
  induction l with
  | nil => rfl
  | cons r l ih =>
    by_cases hr : (r.1 == id) = true
    · rw [List.map_cons, if_pos hr,
        @List.find?_cons_of_pos _ (fun x => x.1 == id) (r.1, g r.2) _ hr,
        @List.find?_cons_of_pos _ (fun x => x.1 == id) r _ hr]
      rfl
    · rw [List.map_cons, if_neg hr,
        @List.find?_cons_of_neg _ (fun x => x.1 == id) r _ hr,
        @List.find?_cons_of_neg _ (fun x => x.1 == id) r _ hr]
      exact ih

theorem getRow_update_commit (st : DBState) (id : Nat)
    (ch bi : Option String) (ts : String) :
    getRow (update_commit st id ch bi ts).1 id
      = (getRow st id).map (fun row =>
          dictSet (dictSet (dictSet row "bug_fix_commit" (optStrVal ch))
            "bug_fix_info" (optStrVal bi)) "bug_fix_date" (Val.str ts)) := by
  unfold update_commit getRow
  rw [find?_map_update id (fun row =>
    dictSet (dictSet (dictSet row "bug_fix_commit" (optStrVal ch))
      "bug_fix_info" (optStrVal bi)) "bug_fix_date" (Val.str ts))]
  cases hf : st.rows.find? (fun r => r.1 == id) with
  | none => rfl
  | some r => rfl

/-- C7: on a store that has a row for the given id, `update_commit` keeps
the row visible and rewrites exactly the three remediation columns: the
commit column takes the passed value, the info column takes the passed value
(NULL when the argument is null, i.e. it ends up unset for a
`(commit, null)` call), and the date column is always stamped with the
current instant — in particular it is stamped whenever at least one of the
two arguments is non-null. -/
theorem claim_C7 (st : DBState) (id : Nat) (ch bi : Option String)
    (ts : String) (row : RecordMap) (h : getRow st id = some row) :
    getRow (update_commit st id ch bi ts).1 id
      = some (dictSet (dictSet (dictSet row "bug_fix_commit" (optStrVal ch))
          "bug_fix_info" (optStrVal bi)) "bug_fix_date" (Val.str ts))
    ∧ dictGet (dictSet (dictSet (dictSet row "bug_fix_commit" (optStrVal ch))
        "bug_fix_info" (optStrVal bi)) "bug_fix_date" (Val.str ts))
        "bug_fix_commit" = some (optStrVal ch)
    ∧ dictGet (dictSet (dictSet (dictSet row "bug_fix_commit" (optStrVal ch))
        "bug_fix_info" (optStrVal bi)) "bug_fix_date" (Val.str ts))
        "bug_fix_info" = some (optStrVal bi)
    ∧ dictGet (dictSet (dictSet (dictSet row "bug_fix_commit" (optStrVal ch))
        "bug_fix_info" (optStrVal bi)) "bug_fix_date" (Val.str ts))
        "bug_fix_date" = some (Val.str ts) := by
  refine ⟨?_, ?_, ?_, ?_⟩
  · rw [getRow_update_commit, h]
    rfl
  · rw [dictGet_dictSet_ne _ _ _ _ (by decide),
      dictGet_dictSet_ne _ _ _ _ (by decide), dictGet_dictSet_self]
  · rw [dictGet_dictSet_ne _ _ _ _ (by decide), dictGet_dictSet_self]
  · rw [dictGet_dictSet_self]

/-- Witness for C7: annotating the one-row store with a commit hash and a
null info sets the commit, stamps the date, and leaves the info NULL. -/
theorem claim_C7_witness :
    getRow (update_commit c7Store 1 (some "abc123") none "2024-01-01").1 1
      = some (dictSet (dictSet (dictSet [("project_name", Val.str "demo")]
          "bug_fix_commit" (Val.str "abc123"))
          "bug_fix_info" Val.null) "bug_fix_date" (Val.str "2024-01-01"))
    ∧ dictGet (dictSet (dictSet (dictSet [("project_name", Val.str "demo")]
        "bug_fix_commit" (Val.str "abc123"))
        "bug_fix_info" Val.null) "bug_fix_date" (Val.str "2024-01-01"))
        "bug_fix_commit" = some (Val.str "abc123")
    ∧ dictGet (dictSet (dictSet (dictSet [("project_name", Val.str "demo")]
        "bug_fix_commit" (Val.str "abc123"))
        "bug_fix_info" Val.null) "bug_fix_date" (Val.str "2024-01-01"))
        "bug_fix_info" = some Val.null
    ∧ dictGet (dictSet (dictSet (dictSet [("project_name", Val.str "demo")]
        "bug_fix_commit" (Val.str "abc123"))
        "bug_fix_info" Val.null) "bug_fix_date" (Val.str "2024-01-01"))
        "bug_fix_date" = some (Val.str "2024-01-01") :=
  claim_C7 c7Store 1 (some "abc123") none "2024-01-01"
    [("project_name", Val.str "demo")] rfl

/-- The full formatted message is always readable from the record mapping
the sink builds (so that mapping is never empty). -/
theorem sinkDbDict_message (msgText : String) (record : LoguruRecord)
    (lineCode : String) :
    dictGet (sinkDbDict msgText record lineCode) "message"
      = some (Val.str msgText) := by
  simp only [sinkDbDict]
  rw [dictGet_dictRemove_ne _ _ _ (by decide), dictGet_dictSet_self]

/-- When both connections are down, the primary insert and then the
emergency insert fail, and `insert_into_db` on any non-empty mapping
reports the critical failure and returns `None` with the state unchanged. -/
theorem insert_into_db_bothFail (tbText : String) (st : DBState)
    (rec : RecordMap) (now : Int) (h : rec.isEmpty = false) :
    insert_into_db false false tbText st (DbDictArg.mapping rec) now
      = (st, none,
         ["Critical failure: unable to log to database. " ++
            "unable to open database file"]) := by
  simp only [insert_into_db]
  rw [h]
  rfl

/-- C10: the acknowledgement is never suppressed — the last console line of
`sqlite_sink` is always the template with `str(id)` substituted for
`{log_id}` — and when both the primary and the emergency insert fail the
returned id is `None`, so the acknowledgement is printed with the literal
text "None" substituted. -/
theorem claim_C10 (msgText : String) (record : LoguruRecord)
    (lineCode tbText : String) (connP connE : Bool) (st : DBState)
    (now : Int) :
    (sqlite_sink msgText record lineCode connP connE tbText st now).2.2.getLast?
      = some (pyFormat record.printMsg
          (pyStrOptNat
            (sqlite_sink msgText record lineCode connP connE tbText st now).2.1)
          commandLineStr)
    ∧ (connP = false → connE = false →
        (sqlite_sink msgText record lineCode connP connE tbText st now).2.1
            = none
        ∧ (sqlite_sink msgText record lineCode connP connE tbText
              st now).2.2.getLast?
            = some (pyFormat record.printMsg "None" commandLineStr)) := by
  constructor
  · simp only [sqlite_sink]
    rw [List.getLast?_concat]
  · intro hP hE
    subst hP
    subst hE
    have hd : (sinkDbDict msgText record lineCode).isEmpty = false :=
      ne_nil_of_dictGet_some (sinkDbDict_message msgText record lineCode)
    have hins := insert_into_db_bothFail tbText st
      (sinkDbDict msgText record lineCode) now hd
    have h2 : sqlite_sink msgText record lineCode false false tbText st now
        = (st, none,
           ["Critical failure: unable to log to database. " ++
              "unable to open database file",
            pyFormat record.printMsg "None" commandLineStr]) := by
      simp only [sqlite_sink]
      rw [hins]
      rfl
    rw [h2]
    exact ⟨rfl, rfl⟩

/-- Witness for C10: with both connections down, the sink returns no id and
still prints the acknowledgement with "None" substituted. -/
theorem claim_C10_witness :
    (sqlite_sink "diag" sampleRecord "x = 1" false false "tb" sampleDB 0).2.1
        = none
    ∧ (sqlite_sink "diag" sampleRecord "x = 1" false false "tb"
          sampleDB 0).2.2.getLast?
        = some (pyFormat sampleRecord.printMsg "None" commandLineStr) :=
  (claim_C10 "diag" sampleRecord "x = 1" "tb" false false sampleDB 0).2 rfl rfl

end MyLoggerModel
